import Mathlib

/-!
Verification of the RFP Simulator calculation engine (`rfp_simulator.py`).

This file shallowly embeds the core of the program: the rate-table
configuration constants, `per_solution_table`, `calculate_costs`,
`fmt_money`, `to_excel_bytes`, and the headcount/dropdown validation block,
and proves the stated properties about them.

Modelling conventions:
- Python `int` values are modelled as `ℤ`; Python `float` monetary values
  are modelled as `ℚ` with the decimal constants taken exactly
  (`0.20 = 1/5`, `0.30 = 3/10`), matching the spec's decimal semantics.
- Python dicts with string keys are modelled as association lists in
  declaration order; `d[k]` and `d.get(k, 0)` are modelled via `dictLookup`.
- `pandas.DataFrame` tables are modelled as their row structure; the
  xlsxwriter byte serialization is abstracted to the sheet structure the
  program hands to it.
-/

/-- `CURRENCY = "$"` (rfp_simulator.py line 18). -/
def CURRENCY : String := "$"

/-- `ANNUAL_COST_PER_FTE = 60000` (line 19). -/
def ANNUAL_COST_PER_FTE : ℤ := 60000

/-- `IMPLEMENTATION_PCT = 0.20` (line 20), exact decimal value. -/
def IMPLEMENTATION_PCT : ℚ := 0.20

/-- `SAVINGS_PCT = 0.30` (line 21), exact decimal value. -/
def SAVINGS_PCT : ℚ := 0.30

/-- `TECH_LICENSE_COSTS` dict (lines 23-30), in declaration order. -/
def TECH_LICENSE_COSTS : List (String × ℤ) :=
  [("RPA", 5000), ("VBA", 0), ("Celonis", 10000),
   ("Soroco", 8000), ("Analytics", 7000), ("AI", 12000)]

/-- `DEV_COSTS` dict (lines 32-39). -/
def DEV_COSTS : List (String × ℤ) :=
  [("RPA", 20000), ("VBA", 1000), ("Celonis", 30000),
   ("Soroco", 25000), ("Analytics", 15000), ("AI", 40000)]

/-- `USER_LICENSE_PER_TECH` dict (lines 41-48). -/
def USER_LICENSE_PER_TECH : List (String × ℤ) :=
  [("RPA", 100), ("VBA", 0), ("Celonis", 200),
   ("Soroco", 150), ("Analytics", 120), ("AI", 250)]

/-- `ALL_TECHS = list(TECH_LICENSE_COSTS.keys())` (line 50). -/
def ALL_TECHS : List String := TECH_LICENSE_COSTS.map Prod.fst

/-- Python dict lookup `d[k]` / `d.get(k)`: first binding for the key. -/
def dictLookup (d : List (String × ℤ)) (k : String) : Option ℤ :=
  (d.find? (fun p => p.1 == k)).map Prod.snd

/-- Python `d.get(k, dflt)`. -/
def dictGetD (d : List (String × ℤ)) (k : String) (dflt : ℤ) : ℤ :=
  (dictLookup d k).getD dflt

/-- One row of the per-solution cost table (lines 69-75). -/
structure SolutionRow where
  solution : String
  licenseCost : ℤ
  devCost : ℤ
  userLicenseCost : ℤ
  totalCost : ℤ
deriving Repr, DecidableEq

/-- The loop body of `per_solution_table` (lines 63-75): the row built for
one catalog technology.  For `tech ∈ ALL_TECHS` the dict indexings
`TECH_LICENSE_COSTS[tech]` etc. always succeed (the catalogs share their
keys), so `.getD 0` is never exercised on a catalog technology. -/
def solutionRow (headcount : ℤ) (selected_techs : List String) (tech : String) :
    SolutionRow :=
  let license_cost := if tech ∈ selected_techs then dictGetD TECH_LICENSE_COSTS tech 0 else 0
  let dev_cost := if tech ∈ selected_techs then dictGetD DEV_COSTS tech 0 else 0
  let user_license_cost :=
    if tech ∈ selected_techs then dictGetD USER_LICENSE_PER_TECH tech 0 * headcount else 0
  { solution := tech
    licenseCost := license_cost
    devCost := dev_cost
    userLicenseCost := user_license_cost
    totalCost := license_cost + dev_cost + user_license_cost }

/-- `per_solution_table(headcount, selected_techs)` (lines 61-86): one row
per catalog technology in declaration order, then the synthetic totals row
(whose `Solution` label is the literal string `"Total Cost"`, line 78). -/
def per_solution_table (headcount : ℤ) (selected_techs : List String) :
    List SolutionRow :=
  let rows := ALL_TECHS.map (solutionRow headcount selected_techs)
  rows ++
    [{ solution := "Total Cost"
       licenseCost := (rows.map SolutionRow.licenseCost).sum
       devCost := (rows.map SolutionRow.devCost).sum
       userLicenseCost := (rows.map SolutionRow.userLicenseCost).sum
       totalCost := (rows.map SolutionRow.totalCost).sum }]

/-- Result record of `calculate_costs` (lines 103-110).  Fields that are
Python ints stay `ℤ`; fields computed with the float percentages are `ℚ`. -/
structure FinancialSummary where
  headcount_cost : ℤ
  implementation_cost : ℚ
  tech_cost : ℤ
  annual_savings : ℚ
  net_annual_cost : ℚ
  payback_years : Option ℚ
deriving Repr, DecidableEq

/-- `calculate_costs(headcount, selected_techs)` (lines 88-110).
`payback_years` starts as `None` and is set to the quotient exactly when
`annual_savings and annual_savings > 0` (for a number this is just
`annual_savings > 0`); the division cannot fail there, so the
`try/except` around it is inert. -/
def calculate_costs (headcount : ℤ) (selected_techs : List String) :
    FinancialSummary :=
  let headcount_cost : ℤ := headcount * ANNUAL_COST_PER_FTE
  let implementation_cost : ℚ := (headcount_cost : ℚ) * IMPLEMENTATION_PCT
  let annual_savings : ℚ := (headcount_cost : ℚ) * SAVINGS_PCT
  let tech_cost : ℤ := (selected_techs.map (fun t => dictGetD TECH_LICENSE_COSTS t 0)).sum
  let net_annual_cost : ℚ := (headcount_cost : ℚ) - annual_savings + (tech_cost : ℚ)
  let payback_years : Option ℚ :=
    if 0 < annual_savings then some (implementation_cost / annual_savings) else none
  { headcount_cost := headcount_cost
    implementation_cost := implementation_cost
    tech_cost := tech_cost
    annual_savings := annual_savings
    net_annual_cost := net_annual_cost
    payback_years := payback_years }

/-- A Python value as it may reach `fmt_money`: a number (int/float/bool),
a string, or `None`.  Only numbers survive `int(round(x))`. -/
inductive PyValue where
  | num : ℚ → PyValue
  | str : String → PyValue
  | none : PyValue
deriving Repr, DecidableEq

/-- Python `round(x)` on a number: round half to even (banker's rounding). -/
def pyRound (q : ℚ) : ℤ :=
  let f := ⌊q⌋
  let frac := q - f
  if frac < 1/2 then f
  else if 1/2 < frac then f + 1
  else if f % 2 = 0 then f else f + 1

/-- Insert a comma every three digits, counting from the right, into a
digit list given most-significant first (the `:,` format specifier). -/
def groupThousands (ds : List Char) : List Char :=
  (List.intercalate [','] (ds.reverse.toChunks 3)).reverse

/-- Python `f"{n:,}"` for an integer `n`. -/
def commaRepr (n : ℤ) : String :=
  (if n < 0 then "-" else "") ++ String.mk (groupThousands (Nat.toDigits 10 n.natAbs))

/-- `fmt_money(x)` (lines 55-59): `f"{CURRENCY}{int(round(x)):,}"` for a
number; the bare `except` catches the `TypeError` raised by `round` on any
non-numeric input and yields `f"{CURRENCY}0"`. -/
def fmt_money (x : PyValue) : String :=
  match x with
  | .num q => CURRENCY ++ commaRepr (pyRound q)
  | _ => CURRENCY ++ "0"

/-- The key/value rows of the `Meta` sheet: the list of (Key, Value) pairs
of the run metadata dict, as a two-column DataFrame (line 118). -/
def metaSheetRows (runMeta : List (String × String)) : List (List String) :=
  runMeta.map (fun kv => [kv.1, kv.2])

/-- `to_excel_bytes(df_dict, run_meta)` (lines 112-123), modelled as the
sheets (name, row data) handed to the xlsxwriter workbook in order: one
sheet per `df_dict` entry with its name truncated by `name[:31]`, then the
`"Meta"` sheet.  The final binary encoding of this sheet structure by
xlsxwriter is abstracted away. -/
def to_excel_bytes (df_dict : List (String × List (List String)))
    (runMeta : List (String × String)) : List (String × List (List String)) :=
  df_dict.map (fun nd => (nd.1.take 31, nd.2)) ++ [("Meta", metaSheetRows runMeta)]

/-- Python `str.strip()`: drop leading and trailing whitespace. -/
def pyStrip (s : String) : String :=
  String.mk (((s.data.dropWhile Char.isWhitespace).reverse.dropWhile
    Char.isWhitespace).reverse)

/-- Numeric value of a digit list, most significant first. -/
def digitsVal (ds : List Char) : ℕ :=
  ds.foldl (fun a c => a * 10 + (c.toNat - 48)) 0

/-- Python `float(s)` on an already-stripped string, modelled for
optional-signed plain decimal literals `[+-]digits[.digits]` with at least
one digit (the forms the headcount field can sensibly carry); exponent,
`inf`/`nan` and underscore forms of the Python float grammar are not
modelled.  `none` models `float` raising `ValueError`. -/
def pyFloatOfString (s : String) : Option ℚ :=
  let core : List Char → Option ℚ := fun l =>
    let intPart := l.takeWhile Char.isDigit
    let rest := l.dropWhile Char.isDigit
    match rest with
    | [] => if intPart.isEmpty then none else some (digitsVal intPart : ℚ)
    | '.' :: fracPart =>
        if fracPart.all Char.isDigit ∧ ¬(intPart.isEmpty ∧ fracPart.isEmpty) then
          some ((digitsVal intPart : ℚ) +
            (digitsVal fracPart : ℚ) / (10 : ℚ) ^ fracPart.length)
        else none
    | _ => none
  match s.data with
  | '-' :: l => (core l).map Neg.neg
  | '+' :: l => core l
  | l => core l

/-- Python `int(q)` on a number: truncation toward zero. -/
def truncRat (q : ℚ) : ℤ :=
  if 0 ≤ q then ⌊q⌋ else -⌊-q⌋

/-- The validation block (lines 250-267): errors are accumulated in a list
and the calculation proceeds only when the list is empty.
`int(float(str(headcount).strip()))` parses then truncates; a failed parse
appends "Headcount must be an integer.", a non-positive truncation appends
"Headcount must be > 0.", and any empty dropdown appends the single
message "All dropdowns are mandatory.". -/
def validate (headcount region hc_category process_type transform_scale : String) :
    List String :=
  let hcErrors : List String :=
    match pyFloatOfString (pyStrip headcount) with
    | some q => if truncRat q ≤ 0 then ["Headcount must be > 0."] else []
    | none => ["Headcount must be an integer."]
  let ddErrors : List String :=
    if region = "" ∨ hc_category = "" ∨ process_type = "" ∨ transform_scale = "" then
      ["All dropdowns are mandatory."]
    else []
  hcErrors ++ ddErrors

/-- The per-technology part of the table is the catalog-ordered map of the
loop body. -/
theorem per_solution_table_dropLast (headcount : ℤ) (selected_techs : List String) :
    (per_solution_table headcount selected_techs).dropLast =
      ALL_TECHS.map (solutionRow headcount selected_techs) := by
  simp [per_solution_table, List.dropLast_concat]

/-- C1: for every headcount `h > 0` and subset `S` of catalog identifiers,
`per_solution_table h S` has `|catalog| + 1` rows, the per-technology rows
follow catalog declaration order with the synthetic totals row last, and
each of the totals row's four cost columns is the column-wise sum of the
preceding per-technology rows. -/
theorem per_solution_table_shape (h : ℤ) (S : List String) (hpos : 0 < h)
    (hsub : ∀ t ∈ S, t ∈ ALL_TECHS) :
    (per_solution_table h S).length = TECH_LICENSE_COSTS.length + 1 ∧
    (per_solution_table h S).map SolutionRow.solution = ALL_TECHS ++ ["Total Cost"] ∧
    (per_solution_table h S).getLast? = some
      { solution := "Total Cost"
        licenseCost :=
          ((per_solution_table h S).dropLast.map SolutionRow.licenseCost).sum
        devCost :=
          ((per_solution_table h S).dropLast.map SolutionRow.devCost).sum
        userLicenseCost :=
          ((per_solution_table h S).dropLast.map SolutionRow.userLicenseCost).sum
        totalCost :=
          ((per_solution_table h S).dropLast.map SolutionRow.totalCost).sum } := by
  refine ⟨?_, ?_, ?_⟩
  · simp [per_solution_table, ALL_TECHS]
  · simp [per_solution_table, List.map_map, ALL_TECHS, solutionRow]
  · rw [per_solution_table_dropLast]
    simp [per_solution_table, List.getLast?_concat]

/-- C1 witness at `h = 25`, `S = ["RPA", "AI"]`. -/
theorem per_solution_table_shape_witness :
    (per_solution_table 25 ["RPA", "AI"]).length = TECH_LICENSE_COSTS.length + 1 :=
  (per_solution_table_shape 25 ["RPA", "AI"] (by decide) (by decide)).1

/-- C2: per-technology rows carry the catalog's flat license/development
values and `perUserLicenseCost * headcount` exactly when selected, and all
zeros when not selected; concretely, `h = 25`, `S = {RPA, AI}` yields the
RPA row {5000, 20000, 2500, 27500}, the AI row {12000, 40000, 6250, 58250},
zero rows for the rest, and totals {17000, 60000, 8750, 85750}. -/
theorem per_solution_table_rows (h : ℤ) (S : List String) (hpos : 0 < h)
    (hsub : ∀ t ∈ S, t ∈ ALL_TECHS) :
    (per_solution_table h S).dropLast = ALL_TECHS.map (solutionRow h S) ∧
    (∀ tech l d u,
      dictLookup TECH_LICENSE_COSTS tech = some l →
      dictLookup DEV_COSTS tech = some d →
      dictLookup USER_LICENSE_PER_TECH tech = some u →
      (tech ∈ S → solutionRow h S tech =
        { solution := tech, licenseCost := l, devCost := d,
          userLicenseCost := u * h, totalCost := l + d + u * h }) ∧
      (tech ∉ S → solutionRow h S tech =
        { solution := tech, licenseCost := 0, devCost := 0,
          userLicenseCost := 0, totalCost := 0 })) ∧
    per_solution_table 25 ["RPA", "AI"] =
      [{ solution := "RPA", licenseCost := 5000, devCost := 20000,
         userLicenseCost := 2500, totalCost := 27500 },
       { solution := "VBA", licenseCost := 0, devCost := 0,
         userLicenseCost := 0, totalCost := 0 },
       { solution := "Celonis", licenseCost := 0, devCost := 0,
         userLicenseCost := 0, totalCost := 0 },
       { solution := "Soroco", licenseCost := 0, devCost := 0,
         userLicenseCost := 0, totalCost := 0 },
       { solution := "Analytics", licenseCost := 0, devCost := 0,
         userLicenseCost := 0, totalCost := 0 },
       { solution := "AI", licenseCost := 12000, devCost := 40000,
         userLicenseCost := 6250, totalCost := 58250 },
       { solution := "Total Cost", licenseCost := 17000, devCost := 60000,
         userLicenseCost := 8750, totalCost := 85750 }] := by
  refine ⟨per_solution_table_dropLast h S, ?_, by decide⟩
  intro tech l d u hl hd hu
  constructor <;> intro hmem <;>
    simp [solutionRow, dictGetD, hl, hd, hu, hmem]

/-- C2 witness: the scenario-A table, through the theorem at `h = 25`,
`S = ["RPA", "AI"]`. -/
theorem per_solution_table_rows_witness :
    per_solution_table 25 ["RPA", "AI"] =
      [{ solution := "RPA", licenseCost := 5000, devCost := 20000,
         userLicenseCost := 2500, totalCost := 27500 },
       { solution := "VBA", licenseCost := 0, devCost := 0,
         userLicenseCost := 0, totalCost := 0 },
       { solution := "Celonis", licenseCost := 0, devCost := 0,
         userLicenseCost := 0, totalCost := 0 },
       { solution := "Soroco", licenseCost := 0, devCost := 0,
         userLicenseCost := 0, totalCost := 0 },
       { solution := "Analytics", licenseCost := 0, devCost := 0,
         userLicenseCost := 0, totalCost := 0 },
       { solution := "AI", licenseCost := 12000, devCost := 40000,
         userLicenseCost := 6250, totalCost := 58250 },
       { solution := "Total Cost", licenseCost := 17000, devCost := 60000,
         userLicenseCost := 8750, totalCost := 85750 }] :=
  (per_solution_table_rows 25 ["RPA", "AI"] (by decide) (by decide)).2.2

/-- C3: the five non-optional fields of `calculate_costs h S` are
`h * annualCostPerUnit`, that times `implementationPct`, that times
`savingsPct`, the license-only sum over the selected identifiers, and
`headcountCost - annualSavings + techCost`; the shipped constants at
`h = 25`, `S = {RPA, AI}` give 1,500,000 / 300,000 / 450,000 / 17,000 /
1,067,000. -/
theorem calculate_costs_fields (h : ℤ) (S : List String) (hpos : 0 < h)
    (hsub : ∀ t ∈ S, t ∈ ALL_TECHS) :
    (calculate_costs h S).headcount_cost = h * ANNUAL_COST_PER_FTE ∧
    (calculate_costs h S).implementation_cost =
      ((h * ANNUAL_COST_PER_FTE : ℤ) : ℚ) * IMPLEMENTATION_PCT ∧
    (calculate_costs h S).annual_savings =
      ((h * ANNUAL_COST_PER_FTE : ℤ) : ℚ) * SAVINGS_PCT ∧
    (calculate_costs h S).tech_cost =
      (S.map (fun t => dictGetD TECH_LICENSE_COSTS t 0)).sum ∧
    (calculate_costs h S).net_annual_cost =
      ((calculate_costs h S).headcount_cost : ℚ) -
        (calculate_costs h S).annual_savings +
        ((calculate_costs h S).tech_cost : ℚ) ∧
    (calculate_costs 25 ["RPA", "AI"]).headcount_cost = 1500000 ∧
    (calculate_costs 25 ["RPA", "AI"]).implementation_cost = 300000 ∧
    (calculate_costs 25 ["RPA", "AI"]).annual_savings = 450000 ∧
    (calculate_costs 25 ["RPA", "AI"]).tech_cost = 17000 ∧
    (calculate_costs 25 ["RPA", "AI"]).net_annual_cost = 1067000 := by
  refine ⟨rfl, rfl, rfl, rfl, rfl, by decide, ?_, ?_, by decide, ?_⟩
  · show ((25 * ANNUAL_COST_PER_FTE : ℤ) : ℚ) * IMPLEMENTATION_PCT = 300000
    norm_num [ANNUAL_COST_PER_FTE, IMPLEMENTATION_PCT]
  · show ((25 * ANNUAL_COST_PER_FTE : ℤ) : ℚ) * SAVINGS_PCT = 450000
    norm_num [ANNUAL_COST_PER_FTE, SAVINGS_PCT]
  · show ((25 * ANNUAL_COST_PER_FTE : ℤ) : ℚ) -
        ((25 * ANNUAL_COST_PER_FTE : ℤ) : ℚ) * SAVINGS_PCT +
        (((["RPA", "AI"].map (fun t => dictGetD TECH_LICENSE_COSTS t 0)).sum : ℤ) : ℚ) =
        1067000
    rw [show (["RPA", "AI"].map (fun t => dictGetD TECH_LICENSE_COSTS t 0)).sum =
      (17000 : ℤ) from by decide]
    norm_num [ANNUAL_COST_PER_FTE, SAVINGS_PCT]

/-- C3 witness: scenario B's headcount cost, through the theorem at
`h = 25`, `S = ["RPA", "AI"]`. -/
theorem calculate_costs_fields_witness :
    (calculate_costs 25 ["RPA", "AI"]).headcount_cost = 1500000 :=
  (calculate_costs_fields 25 ["RPA", "AI"] (by decide) (by decide)).2.2.2.2.2.1

/-- C4: `payback_years` is `none` exactly when `annual_savings ≤ 0`, and
equals `implementation_cost / annual_savings` whenever
`annual_savings > 0`; `calculate_costs` is a total Lean function, so the
operation raises in neither case. -/
theorem payback_years_spec (h : ℤ) (S : List String) (hpos : 0 < h)
    (hsub : ∀ t ∈ S, t ∈ ALL_TECHS) :
    ((calculate_costs h S).payback_years = none ↔
      (calculate_costs h S).annual_savings ≤ 0) ∧
    (0 < (calculate_costs h S).annual_savings →
      (calculate_costs h S).payback_years =
        some ((calculate_costs h S).implementation_cost /
          (calculate_costs h S).annual_savings)) := by
  have hpay : (calculate_costs h S).payback_years =
      if 0 < (calculate_costs h S).annual_savings then
        some ((calculate_costs h S).implementation_cost /
          (calculate_costs h S).annual_savings)
      else none := rfl
  constructor
  · rw [hpay]
    by_cases hgt : 0 < (calculate_costs h S).annual_savings
    · rw [if_pos hgt]
      exact ⟨fun hco => (Option.some_ne_none _ hco).elim,
        fun hle => ((not_lt.mpr hle) hgt).elim⟩
    · rw [if_neg hgt]
      simpa using not_lt.mp hgt
  · intro hgt
    rw [hpay, if_pos hgt]

/-- C4 witness at `h = 25`, `S = ["RPA", "AI"]`. -/
theorem payback_years_spec_witness :
    (calculate_costs 25 ["RPA", "AI"]).payback_years = none ↔
      (calculate_costs 25 ["RPA", "AI"]).annual_savings ≤ 0 :=
  (payback_years_spec 25 ["RPA", "AI"] (by decide) (by decide)).1

/-- The zero amount formats as the plain `"$0"` string. -/
theorem fmt_money_num_zero : fmt_money (PyValue.num 0) = CURRENCY ++ "0" := by
  have hr : pyRound 0 = 0 := by simp only [pyRound]; norm_num
  show CURRENCY ++ commaRepr (pyRound 0) = CURRENCY ++ "0"
  rw [hr, show commaRepr 0 = "0" from by decide]

/-- C5: `fmt_money` is total by construction, and every non-numeric input
(string, `None`, ...) produces exactly the string `fmt_money` gives for
the amount 0, currency prefix included. -/
theorem fmt_money_fallback (v : PyValue) (hnn : ∀ q, v ≠ PyValue.num q) :
    fmt_money v = fmt_money (PyValue.num 0) := by
  cases v with
  | num q => exact absurd rfl (hnn q)
  | str s => rw [fmt_money_num_zero]; rfl
  | none => rw [fmt_money_num_zero]; rfl

/-- C5 witness: a string input formats as the zero amount. -/
theorem fmt_money_fallback_witness :
    fmt_money (PyValue.str "not a number") = fmt_money (PyValue.num 0) :=
  fmt_money_fallback (PyValue.str "not a number")
    (fun _ hq => PyValue.noConfusion hq)

/-- A key outside the catalog contributes the `.get` default 0. -/
theorem dictGetD_eq_zero_of_not_mem (t : String) (ht : t ∉ ALL_TECHS) :
    dictGetD TECH_LICENSE_COSTS t 0 = 0 := by
  cases hfind : TECH_LICENSE_COSTS.find? (fun p => p.1 == t) with
  | none => simp [dictGetD, dictLookup, hfind]
  | some p =>
      exfalso
      apply ht
      have hmem := List.mem_of_find?_eq_some hfind
      have hkey : p.1 = t := by simpa using List.find?_some hfind
      exact hkey ▸ List.mem_map.mpr ⟨p, hmem, rfl⟩

/-- Dropping non-catalog identifiers leaves the selected license sum
unchanged. -/
theorem tech_sum_filter (S : List String) :
    ((S.filter fun t => decide (t ∈ ALL_TECHS)).map
      (fun t => dictGetD TECH_LICENSE_COSTS t 0)).sum =
    (S.map (fun t => dictGetD TECH_LICENSE_COSTS t 0)).sum := by
  induction S with
  | nil => rfl
  | cons t rest ih =>
      by_cases ht : t ∈ ALL_TECHS
      · simp [ht, ih]
      · simp [ht, ih, dictGetD_eq_zero_of_not_mem t ht]

/-- Dropping non-catalog identifiers does not change any catalog
technology's row. -/
theorem solutionRow_filter (h : ℤ) (S : List String) (tech : String)
    (ht : tech ∈ ALL_TECHS) :
    solutionRow h (S.filter fun t => decide (t ∈ ALL_TECHS)) tech =
      solutionRow h S tech := by
  simp [solutionRow, List.mem_filter, ht]

/-- C6 counterexample: selecting the unknown identifier `"Quantum"` raises
nothing; both operations return normally, with results identical to the
call without it — the unknown selected identifier is silently ignored,
not reported as an error. -/
theorem unknown_tech_not_reported :
    "Quantum" ∉ ALL_TECHS ∧
    per_solution_table 25 ["RPA", "Quantum"] = per_solution_table 25 ["RPA"] ∧
    calculate_costs 25 ["RPA", "Quantum"] = calculate_costs 25 ["RPA"] := by
  refine ⟨by decide, by decide, ?_⟩
  have hsum : (["RPA", "Quantum"].map fun t => dictGetD TECH_LICENSE_COSTS t 0).sum =
      (["RPA"].map fun t => dictGetD TECH_LICENSE_COSTS t 0).sum := by decide
  simp only [calculate_costs]
  rw [hsum]

/-- C6 amended: for every headcount `h > 0` and every selection containing
an identifier absent from the catalog, `calculate_costs` and
`per_solution_table` return normally (they are total), and their results
equal those for the selection with the unknown identifiers removed:
unknown selected identifiers are silently ignored, not reported. -/
theorem unknown_techs_ignored (h : ℤ) (S : List String) (hpos : 0 < h)
    (hunk : ∃ t ∈ S, t ∉ ALL_TECHS) :
    calculate_costs h S =
      calculate_costs h (S.filter fun t => decide (t ∈ ALL_TECHS)) ∧
    per_solution_table h S =
      per_solution_table h (S.filter fun t => decide (t ∈ ALL_TECHS)) := by
  constructor
  · simp only [calculate_costs]
    rw [tech_sum_filter S]
  · have hrows : ALL_TECHS.map (solutionRow h (S.filter fun t => decide (t ∈ ALL_TECHS))) =
        ALL_TECHS.map (solutionRow h S) :=
      List.map_congr_left (fun tech ht => solutionRow_filter h S tech ht)
    simp only [per_solution_table]
    rw [hrows]

/-- C6 witness at `h = 25`, `S = ["RPA", "Quantum"]`. -/
theorem unknown_techs_ignored_witness :
    calculate_costs 25 ["RPA", "Quantum"] =
      calculate_costs 25 (["RPA", "Quantum"].filter fun t => decide (t ∈ ALL_TECHS)) :=
  (unknown_techs_ignored 25 ["RPA", "Quantum"] (by decide)
    ⟨"Quantum", by decide, by decide⟩).1

/-- C8: for every named-table mapping and run-metadata mapping, the
workbook holds exactly one tabular sheet per entry, in order, each name
truncated to 31 characters, followed by exactly one `"Meta"` sheet holding
the metadata as key/value rows. -/
theorem to_excel_bytes_sheets (df_dict : List (String × List (List String)))
    (runMeta : List (String × String)) :
    (to_excel_bytes df_dict runMeta).length = df_dict.length + 1 ∧
    (to_excel_bytes df_dict runMeta).map Prod.fst =
      df_dict.map (fun nd => nd.1.take 31) ++ ["Meta"] ∧
    (to_excel_bytes df_dict runMeta).dropLast =
      df_dict.map (fun nd => (nd.1.take 31, nd.2)) ∧
    (to_excel_bytes df_dict runMeta).getLast? =
      some ("Meta", runMeta.map (fun kv => [kv.1, kv.2])) := by
  refine ⟨?_, ?_, ?_, ?_⟩
  · simp [to_excel_bytes]
  · simp [to_excel_bytes, List.map_map, Function.comp]
  · simp [to_excel_bytes, List.dropLast_concat]
  · simp [to_excel_bytes, List.getLast?_concat, metaSheetRows]

/-- C9: for every headcount `h > 0` and every subset of the catalog, the
payback period is present and equal to the input-independent constant
`implementationPct / savingsPct = 2/3`: `headcountCost` cancels in the
quotient. -/
theorem payback_years_constant (h : ℤ) (S : List String) (hpos : 0 < h)
    (hsub : ∀ t ∈ S, t ∈ ALL_TECHS) :
    (calculate_costs h S).payback_years = some (IMPLEMENTATION_PCT / SAVINGS_PCT) ∧
    IMPLEMENTATION_PCT / SAVINGS_PCT = 2 / 3 := by
  have hc0 : (0 : ℚ) < ((h * ANNUAL_COST_PER_FTE : ℤ) : ℚ) := by
    have : (0 : ℤ) < h * ANNUAL_COST_PER_FTE :=
      mul_pos hpos (by norm_num [ANNUAL_COST_PER_FTE])
    exact_mod_cast this
  have hs : 0 < ((h * ANNUAL_COST_PER_FTE : ℤ) : ℚ) * SAVINGS_PCT :=
    mul_pos hc0 (by norm_num [SAVINGS_PCT])
  constructor
  · show (if 0 < ((h * ANNUAL_COST_PER_FTE : ℤ) : ℚ) * SAVINGS_PCT then
        some (((h * ANNUAL_COST_PER_FTE : ℤ) : ℚ) * IMPLEMENTATION_PCT /
          (((h * ANNUAL_COST_PER_FTE : ℤ) : ℚ) * SAVINGS_PCT))
      else none) = some (IMPLEMENTATION_PCT / SAVINGS_PCT)
    rw [if_pos hs, mul_div_mul_left _ _ (ne_of_gt hc0)]
  · norm_num [IMPLEMENTATION_PCT, SAVINGS_PCT]

/-- C9 witness at `h = 25`, `S = []`. -/
theorem payback_years_constant_witness :
    (calculate_costs 25 []).payback_years = some (IMPLEMENTATION_PCT / SAVINGS_PCT) :=
  (payback_years_constant 25 [] (by decide) (by intro t ht; cases ht)).1

/-- Every license cost the `.get` can produce is non-negative. -/
theorem techLicense_getD_nonneg (t : String) : 0 ≤ dictGetD TECH_LICENSE_COSTS t 0 := by
  cases hfind : TECH_LICENSE_COSTS.find? (fun p => p.1 == t) with
  | none => simp [dictGetD, dictLookup, hfind]
  | some p =>
      have hmem := List.mem_of_find?_eq_some hfind
      simp only [dictGetD, dictLookup, hfind, Option.map_some', Option.getD_some]
      fin_cases hmem <;> norm_num

/-- C10: with the shipped constants, for every `h > 0` and subset of the
catalog, `net_annual_cost = (1 - savingsPct) * headcountCost + techCost`
with `techCost ≥ 0`, hence it is never negative: the spec's allowance that
it "may be negative" is not exercised by this configuration. -/
theorem net_annual_cost_nonneg (h : ℤ) (S : List String) (hpos : 0 < h)
    (hsub : ∀ t ∈ S, t ∈ ALL_TECHS) :
    (calculate_costs h S).net_annual_cost =
      (1 - SAVINGS_PCT) * ((h * ANNUAL_COST_PER_FTE : ℤ) : ℚ) +
        ((calculate_costs h S).tech_cost : ℚ) ∧
    0 ≤ (calculate_costs h S).tech_cost ∧
    0 ≤ (calculate_costs h S).net_annual_cost := by
  have htc : 0 ≤ (calculate_costs h S).tech_cost := by
    show 0 ≤ (S.map (fun t => dictGetD TECH_LICENSE_COSTS t 0)).sum
    refine List.sum_nonneg ?_
    intro x hx
    rcases List.mem_map.mp hx with ⟨t, _, rfl⟩
    exact techLicense_getD_nonneg t
  have hnet : (calculate_costs h S).net_annual_cost =
      (1 - SAVINGS_PCT) * ((h * ANNUAL_COST_PER_FTE : ℤ) : ℚ) +
        ((calculate_costs h S).tech_cost : ℚ) := by
    have hproj : ((calculate_costs h S).tech_cost : ℚ) =
        (((S.map (fun t => dictGetD TECH_LICENSE_COSTS t 0)).sum : ℤ) : ℚ) := rfl
    rw [hproj]
    show ((h * ANNUAL_COST_PER_FTE : ℤ) : ℚ) -
        ((h * ANNUAL_COST_PER_FTE : ℤ) : ℚ) * SAVINGS_PCT +
        (((S.map (fun t => dictGetD TECH_LICENSE_COSTS t 0)).sum : ℤ) : ℚ) = _
    ring
  refine ⟨hnet, htc, ?_⟩
  rw [hnet]
  have h1 : (0 : ℚ) < ((h * ANNUAL_COST_PER_FTE : ℤ) : ℚ) := by
    have : (0 : ℤ) < h * ANNUAL_COST_PER_FTE :=
      mul_pos hpos (by norm_num [ANNUAL_COST_PER_FTE])
    exact_mod_cast this
  have h2 : (0 : ℚ) < 1 - SAVINGS_PCT := by norm_num [SAVINGS_PCT]
  have h3 : (0 : ℚ) ≤ ((calculate_costs h S).tech_cost : ℚ) := by exact_mod_cast htc
  exact add_nonneg (le_of_lt (mul_pos h2 h1)) h3

/-- C10 witness at `h = 25`, `S = ["RPA", "AI"]`. -/
theorem net_annual_cost_nonneg_witness :
    0 ≤ (calculate_costs 25 ["RPA", "AI"]).net_annual_cost :=
  (net_annual_cost_nonneg 25 ["RPA", "AI"] (by decide) (by decide)).2.2

/-- C7 counterexample: the non-integer numeric string `"25.7"` (with all
four dropdowns filled) produces no validation error at all — it parses as
the non-integral number 25.7, which `int(...)` truncates to 25 — so the
calculation proceeds, contradicting the claim that every headcount input
that is not a positive integer is rejected. -/
theorem validate_accepts_nonintegral :
    validate "25.7" "North America" "Ops" "Claims" "Large" = [] ∧
    pyFloatOfString (pyStrip "25.7") = some ((25 : ℚ) + 7 / 10 ^ 1) ∧
    (¬ ∃ n : ℤ, ((25 : ℚ) + 7 / 10 ^ 1) = (n : ℤ)) ∧
    truncRat ((25 : ℚ) + 7 / 10 ^ 1) = 25 := by
  refine ⟨?_, rfl, ?_, by norm_num [truncRat]⟩
  · simp only [validate]
    rw [show pyFloatOfString (pyStrip "25.7") = some ((25 : ℚ) + 7 / 10 ^ 1) from rfl]
    norm_num [truncRat]
    decide
  · rintro ⟨n, hn⟩
    have h10 : (257 : ℚ) = 10 * (n : ℚ) := by
      field_simp at hn
      linarith
    have hz : (257 : ℤ) = 10 * n := by exact_mod_cast h10
    omega

/-- C7 amended: the validation boundary collects (rather than fail-fast)
exactly these messages: a headcount message when the input fails numeric
parsing or truncates (toward zero) to a non-positive integer, and a single
dropdown message when any of the four categorical fields is empty; the
calculation proceeds exactly when the headcount parses with positive
truncation and all four fields are non-empty.  Non-integer numeric strings
are therefore accepted via truncation, not rejected. -/
theorem validate_messages (hc r c p t : String) :
    (validate hc r c p t = [] ↔
      (∃ q, pyFloatOfString (pyStrip hc) = some q ∧ 0 < truncRat q) ∧
      r ≠ "" ∧ c ≠ "" ∧ p ≠ "" ∧ t ≠ "") ∧
    ("Headcount must be an integer." ∈ validate hc r c p t ↔
      pyFloatOfString (pyStrip hc) = none) ∧
    ("Headcount must be > 0." ∈ validate hc r c p t ↔
      ∃ q, pyFloatOfString (pyStrip hc) = some q ∧ truncRat q ≤ 0) ∧
    ("All dropdowns are mandatory." ∈ validate hc r c p t ↔
      (r = "" ∨ c = "" ∨ p = "" ∨ t = "")) := by
  simp only [validate]
  cases hp : pyFloatOfString (pyStrip hc) with
  | none =>
      by_cases hdd : r = "" ∨ c = "" ∨ p = "" ∨ t = "" <;>
        simp [hdd]
  | some q =>
      by_cases hq : truncRat q ≤ 0 <;>
        by_cases hdd : r = "" ∨ c = "" ∨ p = "" ∨ t = "" <;>
          simp [hq, hdd] <;> try tauto
      all_goals push_neg at hdd
      all_goals exact ⟨by omega, hdd.1, hdd.2.1, hdd.2.2.1, hdd.2.2.2⟩
